import Mathlib

/-!
Shallow embedding of the vehicle-management CRUD service
(`app/models.py`, `app/schemas.py`, `app/crud.py`, `app/main.py`,
`manage_users.py`).  Storage is modelled as an in-memory database value
threaded through each operation; the storage engine is sequential, so a
commit-time unique-constraint check is an explicit membership test on the
current rows.  The password-hash, verify and token primitives live in
`app/auth.py`, which is external to the sources at hand; handlers that use
them take them as function parameters.
-/

set_option maxHeartbeats 1000000

namespace VehApi

/-- Outcome of an HTTP handler: a payload, an HTTPException
(status code, detail, optional response header), or an exception that no
handler caught (surfaced by the framework as a 500). -/
inductive Resp (α : Type) where
  | ok : α → Resp α
  | err : Nat → String → Option (String × String) → Resp α
  | internal : String → Resp α
deriving DecidableEq

/-- Exceptions raised by the data-access layer: ValueError with a message,
or an IntegrityError surfaced by the storage engine at commit time. -/
inductive CrudErr where
  | valueError : String → CrudErr
  | integrityError : String → CrudErr
deriving DecidableEq

namespace models

/-- Row of the veiculos table (app/models.py, class Veiculo). -/
structure Veiculo where
  id : Nat
  marca : String
  modelo : String
  ano : Int
  placa : String
  status : String
deriving DecidableEq

/-- Row of the usuarios table (app/models.py, class Usuario). -/
structure Usuario where
  id : Nat
  username : String
  hashed_password : String
deriving DecidableEq

end models

/-- The relational store: both tables plus the autoincrement counters of
their integer primary keys. -/
structure DB where
  veiculos : List models.Veiculo
  usuarios : List models.Usuario
  nextVeiculoId : Nat
  nextUsuarioId : Nat
deriving DecidableEq

/-- Empty database, as created at process startup. -/
def initDB : DB := ⟨[], [], 1, 1⟩

namespace schemas

/-- Request body of POST /veiculos before validation: the five fields of
schemas.VeiculoCreate, status optional (its pydantic default is
"DESCONECTADO"). -/
structure VeiculoBody where
  marca : String
  modelo : String
  ano : Int
  placa : String
  status : Option String
deriving DecidableEq

/-- A validated schemas.VeiculoCreate value. -/
structure VeiculoCreate where
  marca : String
  modelo : String
  ano : Int
  placa : String
  status : String
deriving DecidableEq

/-- The status field validator of schemas.VeiculoCreate, applied to the
supplied value only (the default needs no validation). -/
def status_must_be_valid : Option String → Bool
  | none => true
  | some s => s == "CONNECTADO" || s == "DESCONECTADO"

/-- Pydantic validation of schemas.VeiculoCreate: marca and modelo are
plain str fields with no constraint, ano is conint(ge=1886), placa is
constr(min_length=7, max_length=7), status has the field validator. -/
def VeiculoCreate.validate (r : VeiculoBody) : Option VeiculoCreate :=
  if 1886 ≤ r.ano ∧ r.placa.length = 7 ∧ status_must_be_valid r.status = true then
    some ⟨r.marca, r.modelo, r.ano, r.placa, r.status.getD "DESCONECTADO"⟩
  else
    none

/-- schemas.UsuarioCreate: username and password, both plain str fields. -/
structure UsuarioCreate where
  username : String
  password : String
deriving DecidableEq

/-- Pydantic validation of schemas.UsuarioCreate: both fields are plain
str with no constraint, so every pair of strings is accepted. -/
def UsuarioCreate.validate (username password : String) : Option UsuarioCreate :=
  some ⟨username, password⟩

/-- Response schema for users (schemas.Usuario): id and username only. -/
structure Usuario where
  id : Nat
  username : String
deriving DecidableEq

/-- Response schema of POST /token (schemas.Token). -/
structure Token where
  access_token : String
  token_type : String
deriving DecidableEq

end schemas

/-- Replace the status of the first row whose id matches, as the ORM does
after query(...).filter(id == x).first() followed by a field assignment. -/
def setStatusFirst (l : List models.Veiculo) (veiculo_id : Nat) (status : String) :
    List models.Veiculo :=
  match l with
  | [] => []
  | v :: t =>
    if v.id = veiculo_id then { v with status := status } :: t
    else v :: setStatusFirst t veiculo_id status

/-- Remove the first row whose id matches (db.delete on the row returned
by first()). -/
def removeFirstVeiculo (l : List models.Veiculo) (veiculo_id : Nat) :
    List models.Veiculo :=
  match l with
  | [] => []
  | v :: t =>
    if v.id = veiculo_id then t
    else v :: removeFirstVeiculo t veiculo_id

/-- Remove the first user row whose id matches. -/
def removeFirstUsuario (l : List models.Usuario) (usuario_id : Nat) :
    List models.Usuario :=
  match l with
  | [] => []
  | u :: t =>
    if u.id = usuario_id then t
    else u :: removeFirstUsuario t usuario_id

namespace crud

/-- crud.get_veiculo: query by primary key, first match or absent. -/
def get_veiculo (db : DB) (veiculo_id : Nat) : Option models.Veiculo :=
  db.veiculos.find? (fun v => v.id == veiculo_id)

/-- crud.get_veiculo_by_placa. -/
def get_veiculo_by_placa (db : DB) (placa : String) : Option models.Veiculo :=
  db.veiculos.find? (fun v => v.placa == placa)

/-- crud.get_usuario_by_username. -/
def get_usuario_by_username (db : DB) (username : String) : Option models.Usuario :=
  db.usuarios.find? (fun u => u.username == username)

/-- crud.create_veiculo: status vocabulary check, then an explicit plate
pre-check, then add plus commit; a commit-time IntegrityError is caught
and re-raised as ValueError with a rollback. -/
def create_veiculo (db : DB) (veiculo : schemas.VeiculoCreate) :
    Except CrudErr (models.Veiculo × DB) :=
  if ¬ (veiculo.status = "CONNECTADO" ∨ veiculo.status = "DESCONECTADO") then
    .error (.valueError "Status deve ser \x27CONNECTADO\x27 ou \x27DESCONECTADO\x27")
  else
    match get_veiculo_by_placa db veiculo.placa with
    | some _ =>
      .error (.valueError ("Veículo com placa \x27" ++ veiculo.placa ++ "\x27 já existe."))
    | none =>
      let row : models.Veiculo :=
        ⟨db.nextVeiculoId, veiculo.marca, veiculo.modelo, veiculo.ano, veiculo.placa,
          veiculo.status⟩
      if db.veiculos.any (fun v => v.placa == veiculo.placa) then
        .error (.valueError ("Erro ao adicionar veículo com placa \x27" ++ veiculo.placa ++ "\x27."))
      else
        .ok (row, { db with veiculos := db.veiculos ++ [row],
                            nextVeiculoId := db.nextVeiculoId + 1 })

/-- crud.update_veiculo_status: status vocabulary check, then update the
found row (or return absent). -/
def update_veiculo_status (db : DB) (veiculo_id : Nat) (status : String) :
    Except CrudErr (Option models.Veiculo × DB) :=
  if ¬ (status = "CONNECTADO" ∨ status = "DESCONECTADO") then
    .error (.valueError "Status deve ser \x27CONNECTADO\x27 ou \x27DESCONECTADO\x27")
  else
    match get_veiculo db veiculo_id with
    | none => .ok (none, db)
    | some v =>
      .ok (some { v with status := status },
           { db with veiculos := setStatusFirst db.veiculos veiculo_id status })

/-- crud.delete_veiculo. -/
def delete_veiculo (db : DB) (veiculo_id : Nat) : Option models.Veiculo × DB :=
  match get_veiculo db veiculo_id with
  | none => (none, db)
  | some v => (some v, { db with veiculos := removeFirstVeiculo db.veiculos veiculo_id })

/-- crud.create_usuario: explicit username pre-check raising ValueError,
then hash, add and commit.  The commit is NOT wrapped in a try/except, so
a commit-time IntegrityError would propagate untranslated. -/
def create_usuario (hash : String → String) (db : DB) (usuario : schemas.UsuarioCreate) :
    Except CrudErr (models.Usuario × DB) :=
  match get_usuario_by_username db usuario.username with
  | some _ =>
    .error (.valueError ("Usuário \x27" ++ usuario.username ++ "\x27 já existe."))
  | none =>
    let row : models.Usuario := ⟨db.nextUsuarioId, usuario.username, hash usuario.password⟩
    if db.usuarios.any (fun u => u.username == usuario.username) then
      .error (.integrityError "UNIQUE constraint failed: usuarios.username")
    else
      .ok (row, { db with usuarios := db.usuarios ++ [row],
                          nextUsuarioId := db.nextUsuarioId + 1 })

/-- crud.delete_usuario: raises ValueError when the id is absent. -/
def delete_usuario (db : DB) (usuario_id : Nat) : Except CrudErr (models.Usuario × DB) :=
  match db.usuarios.find? (fun u => u.id == usuario_id) with
  | none =>
    .error (.valueError ("Usuário com ID " ++ toString usuario_id ++ " não encontrado."))
  | some u =>
    .ok (u, { db with usuarios := removeFirstUsuario db.usuarios usuario_id })

end crud

namespace auth

/-- Modelled from the spec: app/auth.py is not among the sources at hand.
Spec section 4.3 describes the authentication flow as "given
username+password, look up the user by username; if absent or password
verification fails," report failure; otherwise the user record.  The
password-verification primitive is the parameter verify. -/
def authenticate_user (verify : String → String → Bool) (db : DB)
    (username password : String) : Option models.Usuario :=
  match crud.get_usuario_by_username db username with
  | none => none
  | some u => if verify password u.hashed_password then some u else none

end auth

namespace main

/-- POST /token (main.login_for_access_token): authenticate; on failure
raise HTTPException 401 with the fixed detail and the WWW-Authenticate
challenge header; on success issue a token whose subject claim is the
username (create_access_token, abstracted by mkToken). -/
def login_for_access_token (verify : String → String → Bool) (mkToken : String → String)
    (db : DB) (username password : String) : Resp schemas.Token :=
  match auth.authenticate_user verify db username password with
  | none => .err 401 "Usuário ou senha incorretos" (some ("WWW-Authenticate", "Bearer"))
  | some user => .ok ⟨mkToken user.username, "bearer"⟩

/-- POST /usuarios/ (main.criar_usuario): hash the password, add the row
and commit, with no username pre-check and no try/except around the
commit; the response is shaped by response_model=schemas.Usuario.  On a
duplicate username the commit-time IntegrityError escapes the handler
(the storage engine rejects the insert, so no row is added). -/
def criar_usuario (hash : String → String) (db : DB) (usuario : schemas.UsuarioCreate) :
    Resp schemas.Usuario × DB :=
  let row : models.Usuario := ⟨db.nextUsuarioId, usuario.username, hash usuario.password⟩
  if db.usuarios.any (fun u => u.username == usuario.username) then
    (.internal "UNIQUE constraint failed: usuarios.username", db)
  else
    (.ok ⟨row.id, row.username⟩,
     { db with usuarios := db.usuarios ++ [row], nextUsuarioId := db.nextUsuarioId + 1 })

/-- POST /veiculos (main.criar_veiculo): explicit status vocabulary check
raising 400, then add plus commit inside try, catching a commit-time
IntegrityError into rollback and HTTPException 400 "Placa já registrada.". -/
def criar_veiculo (db : DB) (veiculo : schemas.VeiculoCreate) :
    Resp models.Veiculo × DB :=
  if ¬ (veiculo.status = "CONNECTADO" ∨ veiculo.status = "DESCONECTADO") then
    (.err 400 "Status inválido. O status deve ser \x27CONNECTADO\x27 ou \x27DESCONECTADO\x27." none,
     db)
  else
    let row : models.Veiculo :=
      ⟨db.nextVeiculoId, veiculo.marca, veiculo.modelo, veiculo.ano, veiculo.placa,
        veiculo.status⟩
    if db.veiculos.any (fun v => v.placa == veiculo.placa) then
      (.err 400 "Placa já registrada." none, db)
    else
      (.ok row, { db with veiculos := db.veiculos ++ [row],
                          nextVeiculoId := db.nextVeiculoId + 1 })

/-- FastAPI composition for POST /veiculos: the pydantic body validation
of schemas.VeiculoCreate runs before the handler; a malformed body is
rejected with a validation error and the handler (hence storage) is never
reached. -/
def post_veiculos (db : DB) (r : schemas.VeiculoBody) : Resp models.Veiculo × DB :=
  match schemas.VeiculoCreate.validate r with
  | none => (.err 422 "request body failed schema validation" none, db)
  | some veiculo => criar_veiculo db veiculo

/-- GET /veiculos/{id} (main.obter_veiculo). -/
def obter_veiculo (db : DB) (veiculo_id : Nat) : Resp models.Veiculo × DB :=
  match db.veiculos.find? (fun v => v.id == veiculo_id) with
  | none => (.err 404 "Veículo não encontrado" none, db)
  | some v => (.ok v, db)

/-- PUT /veiculos/{id} (main.atualizar_status): status vocabulary check
raising 400 first, then lookup raising 404, then mutate the found row and
commit. -/
def atualizar_status (db : DB) (veiculo_id : Nat) (status : String) :
    Resp models.Veiculo × DB :=
  if ¬ (status = "CONNECTADO" ∨ status = "DESCONECTADO") then
    (.err 400 "Status inválido. O status deve ser \x27CONNECTADO\x27 ou \x27DESCONECTADO\x27." none,
     db)
  else
    match db.veiculos.find? (fun v => v.id == veiculo_id) with
    | none => (.err 404 "Veículo não encontrado" none, db)
    | some v =>
      (.ok { v with status := status },
       { db with veiculos := setStatusFirst db.veiculos veiculo_id status })

/-- DELETE /veiculos/{id} (main.excluir_veiculo). -/
def excluir_veiculo (db : DB) (veiculo_id : Nat) : Resp String × DB :=
  match db.veiculos.find? (fun v => v.id == veiculo_id) with
  | none => (.err 404 "Veículo não encontrado" none, db)
  | some _ =>
    (.ok "Veículo excluído com sucesso",
     { db with veiculos := removeFirstVeiculo db.veiculos veiculo_id })

end main

/-- One authenticated mutating request against the service. -/
inductive Op where
  | createV : schemas.VeiculoCreate → Op
  | updateS : Nat → String → Op
  | deleteV : Nat → Op
  | createU : schemas.UsuarioCreate → Op

/-- Storage state after one request, as produced by the handlers above. -/
def step (hash : String → String) (db : DB) : Op → DB
  | .createV v => (main.criar_veiculo db v).2
  | .updateS i s => (main.atualizar_status db i s).2
  | .deleteV i => (main.excluir_veiculo db i).2
  | .createU u => (main.criar_usuario hash db u).2

/-- Storage state after a sequence of requests. -/
def runOps (hash : String → String) (db : DB) : List Op → DB
  | [] => db
  | op :: t => runOps hash (step hash db op) t

/-- The plate-uniqueness invariant: no two stored vehicles share a plate. -/
def placaInv (db : DB) : Prop := (db.veiculos.map (fun v => v.placa)).Nodup

namespace manage_users

/-- Parsed command line of manage_users.py: action is one of create, list,
delete (enforced by argparse choices); the two flags may be absent. -/
structure Args where
  action : String
  username : Option String
  password : Option String

/-- Python truthiness test "not args.x" on an optional string flag:
missing or empty. -/
def argMissing : Option String → Bool
  | none => true
  | some s => s.isEmpty

/-- Text carried by a raised data-access exception. -/
def errText : CrudErr → String
  | .valueError m => m
  | .integrityError m => m

/-- Body of the try block in manage_users.main: the messages printed and
the resulting storage state, or the exception that escaped. -/
def runAction (hash : String → String) (args : Args) (db : DB) :
    Except CrudErr (List String × DB) :=
  if args.action = "create" then
    if argMissing args.username || argMissing args.password then
      .ok (["Usuário e senha são necessários para criar um novo usuário."], db)
    else
      let u := args.username.getD ""
      match crud.get_usuario_by_username db u with
      | some _ => .ok (["Usuário \x27" ++ u ++ "\x27 já existe."], db)
      | none =>
        match crud.create_usuario hash db ⟨u, args.password.getD ""⟩ with
        | .error e => .error e
        | .ok (_, db2) => .ok (["Usuário \x27" ++ u ++ "\x27 criado com sucesso."], db2)
  else if args.action = "list" then
    .ok (db.usuarios.map (fun usr => "ID: " ++ toString usr.id ++ ", Username: " ++ usr.username),
         db)
  else if args.action = "delete" then
    if argMissing args.username then
      .ok (["Nome de usuário é necessário para excluir um usuário."], db)
    else
      let u := args.username.getD ""
      match crud.get_usuario_by_username db u with
      | some usr =>
        match crud.delete_usuario db usr.id with
        | .error e => .error e
        | .ok (_, db2) => .ok (["Usuário \x27" ++ u ++ "\x27 excluído com sucesso."], db2)
      | none => .ok (["Usuário \x27" ++ u ++ "\x27 não encontrado."], db)
  else
    .ok ([], db)

/-- The top-level except clause of manage_users.main: any exception that
escapes the try body becomes a printed generic error message and the run
ends normally. -/
def cliCatch (r : Except CrudErr (List String × DB)) (db : DB) : List String × DB :=
  match r with
  | .ok out => out
  | .error e => (["Ocorreu um erro: " ++ errText e], db)

/-- manage_users.main: run the chosen action, catching every exception at
the top level. -/
def main (hash : String → String) (args : Args) (db : DB) : List String × DB :=
  cliCatch (runAction hash args db) db

end manage_users

/-- Concrete stand-in for the external password-hash primitive, used only
to instantiate theorems at concrete inputs. -/
def exHash : String → String := fun p => "hash:" ++ p

lemma setStatusFirst_map_placa (l : List models.Veiculo) (vid : Nat) (s : String) :
    (setStatusFirst l vid s).map (fun v => v.placa) = l.map (fun v => v.placa) := by
  induction l with
  | nil => rfl
  | cons v t ih =>
    by_cases h : v.id = vid
    · simp [setStatusFirst, h]
    · simp [setStatusFirst, h, ih]

lemma removeFirstVeiculo_sublist (l : List models.Veiculo) (vid : Nat) :
    List.Sublist (removeFirstVeiculo l vid) l := by
  induction l with
  | nil => simp [removeFirstVeiculo]
  | cons v t ih =>
    by_cases h : v.id = vid
    · simp [removeFirstVeiculo, h]
    · simpa [removeFirstVeiculo, h] using ih.cons₂ v

lemma placa_not_mem_of_any_false (l : List models.Veiculo) (p : String)
    (h : l.any (fun v => v.placa == p) = false) :
    p ∉ l.map (fun v => v.placa) := by
  intro hmem
  obtain ⟨v, hv, hp⟩ := List.mem_map.mp hmem
  have : l.any (fun v => v.placa == p) = true :=
    List.any_eq_true.mpr ⟨v, hv, by simp [hp]⟩
  simp [this] at h

lemma veiculo_status_map_id (l : List models.Veiculo) (vid : Nat) (s : String)
    (h : ∀ w ∈ l, w.id ≠ vid) :
    l.map (fun w => if w.id = vid then { w with status := s } else w) = l := by
  induction l with
  | nil => rfl
  | cons v t ih =>
    have hv : v.id ≠ vid := h v (List.mem_cons_self v t)
    simp only [List.map_cons, if_neg hv]
    rw [ih (fun w hw => h w (List.mem_cons_of_mem v hw))]

lemma setStatusFirst_eq_map (l : List models.Veiculo) (vid : Nat) (s : String)
    (h : (l.map (fun v => v.id)).Nodup) :
    setStatusFirst l vid s
      = l.map (fun w => if w.id = vid then { w with status := s } else w) := by
  induction l with
  | nil => rfl
  | cons v t ih =>
    simp only [List.map_cons, List.nodup_cons] at h
    obtain ⟨hnotin, hnd⟩ := h
    by_cases hv : v.id = vid
    · simp only [setStatusFirst, if_pos hv, List.map_cons, if_pos hv]
      have hrest : ∀ w ∈ t, w.id ≠ vid := by
        intro w hw heq
        exact hnotin (by rw [hv, ← heq]; exact List.mem_map_of_mem _ hw)
      rw [veiculo_status_map_id t vid s hrest]
    · simp only [setStatusFirst, if_neg hv, List.map_cons, if_neg hv]
      rw [ih hnd]

lemma step_placaInv (hash : String → String) (db : DB) (op : Op)
    (hinv : placaInv db) : placaInv (step hash db op) := by
  cases op with
  | createV v =>
    by_cases hst : v.status = "CONNECTADO" ∨ v.status = "DESCONECTADO"
    · by_cases hany : db.veiculos.any (fun w => w.placa == v.placa) = true
      · simp only [step, main.criar_veiculo, if_neg (not_not_intro hst), hany, if_true]
        exact hinv
      · have hf : db.veiculos.any (fun w => w.placa == v.placa) = false :=
          Bool.eq_false_iff.mpr hany
        simp only [step, main.criar_veiculo, if_neg (not_not_intro hst), hf,
          Bool.false_eq_true, if_false]
        simp only [placaInv, List.map_append, List.map_cons, List.map_nil] at hinv ⊢
        have hnm := placa_not_mem_of_any_false db.veiculos v.placa hf
        simp [List.nodup_append, hinv, hnm]
    · simp only [step, main.criar_veiculo, if_pos hst]
      exact hinv
  | updateS i s =>
    by_cases hst : s = "CONNECTADO" ∨ s = "DESCONECTADO"
    · simp only [step, main.atualizar_status, if_neg (not_not_intro hst)]
      cases hfind : db.veiculos.find? (fun v => v.id == i) with
      | none => simpa [hfind] using hinv
      | some v =>
        simp only [hfind, placaInv, setStatusFirst_map_placa]
        exact hinv
    · simp only [step, main.atualizar_status, if_pos hst]
      exact hinv
  | deleteV i =>
    cases hfind : db.veiculos.find? (fun v => v.id == i) with
    | none => simpa [step, main.excluir_veiculo, hfind] using hinv
    | some v =>
      simp only [step, main.excluir_veiculo, hfind]
      exact ((removeFirstVeiculo_sublist db.veiculos i).map _).nodup hinv
  | createU u =>
    by_cases hany : db.usuarios.any (fun w => w.username == u.username) = true
    · simpa [step, main.criar_usuario, hany] using hinv
    · have hf : db.usuarios.any (fun w => w.username == u.username) = false :=
        Bool.eq_false_iff.mpr hany
      simpa [step, main.criar_usuario, hf, placaInv] using hinv

lemma runOps_placaInv (hash : String → String) (ops : List Op) :
    ∀ db : DB, placaInv db → placaInv (runOps hash db ops) := by
  induction ops with
  | nil => intro db h; exact h
  | cons op t ih =>
    intro db h
    exact ih (step hash db op) (step_placaInv hash db op h)

/-- C2: a create request whose plate equals a stored vehicle's plate (and
whose status passed validation) fails with HTTP 400 "Placa já registrada."
and leaves storage unchanged; the plate-uniqueness invariant is preserved
by every request and therefore holds after every sequence of operations
from the empty initial store. -/
theorem C2_plate_uniqueness (hash : String → String) (db : DB)
    (req : schemas.VeiculoCreate) (ops : List Op) :
    ((req.status = "CONNECTADO" ∨ req.status = "DESCONECTADO") →
      (∃ v ∈ db.veiculos, v.placa = req.placa) →
      main.criar_veiculo db req = (Resp.err 400 "Placa já registrada." none, db)) ∧
    (placaInv db → placaInv (runOps hash db ops)) ∧
    placaInv (runOps hash initDB ops) := by
  refine ⟨?_, runOps_placaInv hash ops db,
    runOps_placaInv hash ops initDB (by simp [placaInv, initDB])⟩
  intro hst hex
  obtain ⟨v, hv, hp⟩ := hex
  have hany : db.veiculos.any (fun w => w.placa == req.placa) = true :=
    List.any_eq_true.mpr ⟨v, hv, by simp [hp]⟩
  simp only [main.criar_veiculo, if_neg (not_not_intro hst), hany, if_true]

/-- Concrete one-vehicle store used to instantiate theorems. -/
def c2db : DB := ⟨[⟨1, "Fiat", "Uno", 2022, "ABC1234", "CONNECTADO"⟩], [], 2, 1⟩

/-- Witness for C2 at a concrete duplicate-plate request. -/
theorem C2_plate_uniqueness_witness :
    main.criar_veiculo c2db ⟨"VW", "Gol", 2020, "ABC1234", "CONNECTADO"⟩
      = (Resp.err 400 "Placa já registrada." none, c2db) ∧
    placaInv (runOps exHash initDB
      [Op.createV ⟨"Fiat", "Uno", 2022, "ABC1234", "CONNECTADO"⟩,
       Op.createV ⟨"VW", "Gol", 2020, "ABC1234", "CONNECTADO"⟩]) := by
  refine ⟨(C2_plate_uniqueness exHash c2db ⟨"VW", "Gol", 2020, "ABC1234", "CONNECTADO"⟩ []).1
      (Or.inl rfl) ⟨⟨1, "Fiat", "Uno", 2022, "ABC1234", "CONNECTADO"⟩, by decide, rfl⟩,
    (C2_plate_uniqueness exHash initDB ⟨"VW", "Gol", 2020, "ABC1234", "CONNECTADO"⟩
      [Op.createV ⟨"Fiat", "Uno", 2022, "ABC1234", "CONNECTADO"⟩,
       Op.createV ⟨"VW", "Gol", 2020, "ABC1234", "CONNECTADO"⟩]).2.2⟩

/-- C4: a status-update request whose status value lies outside the
vocabulary is rejected with HTTP 400 and the fixed detail message, with
storage entirely unchanged, for every vehicle id; the data-access-layer
function likewise raises ValueError before touching any row. -/
theorem C4_invalid_status_rejected (db : DB) (vid : Nat) (status : String)
    (h : ¬ (status = "CONNECTADO" ∨ status = "DESCONECTADO")) :
    main.atualizar_status db vid status
      = (Resp.err 400
          "Status inválido. O status deve ser \x27CONNECTADO\x27 ou \x27DESCONECTADO\x27." none,
         db) ∧
    crud.update_veiculo_status db vid status
      = .error (.valueError "Status deve ser \x27CONNECTADO\x27 ou \x27DESCONECTADO\x27") := by
  constructor
  · simp only [main.atualizar_status, if_pos h]
  · simp only [crud.update_veiculo_status, if_pos h]

/-- Witness for C4 at the status value INVALIDO and id 1. -/
theorem C4_invalid_status_rejected_witness :
    main.atualizar_status c2db 1 "INVALIDO"
      = (Resp.err 400
          "Status inválido. O status deve ser \x27CONNECTADO\x27 ou \x27DESCONECTADO\x27." none,
         c2db) :=
  (C4_invalid_status_rejected c2db 1 "INVALIDO" (by decide)).1

/-- C5: pydantic validation of a vehicle-creation body accepts exactly
when the year is at least 1886, the plate has exactly 7 characters, and
any supplied status lies in the vocabulary; a body failing validation is
rejected before the handler runs, leaving storage untouched. -/
theorem C5_vehicle_validation (r : schemas.VeiculoBody) (db : DB) :
    ((schemas.VeiculoCreate.validate r).isSome ↔
      (1886 ≤ r.ano ∧ r.placa.length = 7 ∧
        ∀ s, r.status = some s → (s = "CONNECTADO" ∨ s = "DESCONECTADO"))) ∧
    (schemas.VeiculoCreate.validate r = none →
      main.post_veiculos db r
        = (Resp.err 422 "request body failed schema validation" none, db)) := by
  constructor
  · constructor
    · intro hsome
      by_cases hcond : 1886 ≤ r.ano ∧ r.placa.length = 7 ∧
          schemas.status_must_be_valid r.status = true
      · refine ⟨hcond.1, hcond.2.1, ?_⟩
        intro s hs
        have hv := hcond.2.2
        rw [hs] at hv
        simpa [schemas.status_must_be_valid] using hv
      · simp [schemas.VeiculoCreate.validate, if_neg hcond] at hsome
    · rintro ⟨h1, h2, h3⟩
      have hst : schemas.status_must_be_valid r.status = true := by
        cases hr : r.status with
        | none => rfl
        | some s =>
          have := h3 s hr
          simp [schemas.status_must_be_valid]
          tauto
      simp [schemas.VeiculoCreate.validate, h1, h2, hst]
  · intro hn
    simp [main.post_veiculos, hn]

/-- Witness for C5: a year below 1886 is rejected with storage unchanged. -/
theorem C5_vehicle_validation_witness :
    main.post_veiculos c2db ⟨"Fiat", "Uno", 1885, "XYZ5678", none⟩
      = (Resp.err 422 "request body failed schema validation" none, c2db) :=
  (C5_vehicle_validation ⟨"Fiat", "Uno", 1885, "XYZ5678", none⟩ c2db).2 (by decide)

/-- C7: for an id with no stored vehicle, the get-by-id, status-update
(with a valid status value) and delete handlers each answer HTTP 404
"Veículo não encontrado" and leave storage unchanged. -/
theorem C7_not_found (db : DB) (vid : Nat) (status : String)
    (hnone : crud.get_veiculo db vid = none)
    (hst : status = "CONNECTADO" ∨ status = "DESCONECTADO") :
    main.obter_veiculo db vid = (Resp.err 404 "Veículo não encontrado" none, db) ∧
    main.atualizar_status db vid status
      = (Resp.err 404 "Veículo não encontrado" none, db) ∧
    main.excluir_veiculo db vid = (Resp.err 404 "Veículo não encontrado" none, db) := by
  have hfind : db.veiculos.find? (fun v => v.id == vid) = none := by
    simpa [crud.get_veiculo] using hnone
  refine ⟨?_, ?_, ?_⟩
  · simp only [main.obter_veiculo, hfind]
  · simp only [main.atualizar_status, if_neg (not_not_intro hst), hfind]
  · simp only [main.excluir_veiculo, hfind]

/-- Witness for C7 at the nonexistent id 999. -/
theorem C7_not_found_witness :
    main.obter_veiculo c2db 999 = (Resp.err 404 "Veículo não encontrado" none, c2db) ∧
    main.atualizar_status c2db 999 "CONNECTADO"
      = (Resp.err 404 "Veículo não encontrado" none, c2db) ∧
    main.excluir_veiculo c2db 999 = (Resp.err 404 "Veículo não encontrado" none, c2db) :=
  C7_not_found c2db 999 "CONNECTADO" (by decide) (Or.inl rfl)

/-- Tests whether a handler outcome is an HTTPException at all (any
status code), as opposed to a payload or an uncaught exception. -/
def isHTTPError {α : Type} : Resp α → Bool
  | .err _ _ _ => true
  | _ => false

/-- Concrete one-user store used to instantiate theorems. -/
def c1db : DB := ⟨[], [⟨1, "alice", "hash:pw0"⟩], 1, 2⟩

/-- C1 counterexample: with "alice" already stored, the user-creation
endpoint on a second "alice" request surfaces the storage engine's
uniqueness violation as an uncaught IntegrityError rather than any
domain-level duplicate signal (it raises no HTTPException at all); the
endpoint performed no username re-check before insertion. -/
theorem C1_counterexample :
    (main.criar_usuario exHash c1db ⟨"alice", "pw"⟩).1
      = Resp.internal "UNIQUE constraint failed: usuarios.username" ∧
    (main.criar_usuario exHash c1db ⟨"alice", "pw"⟩).2 = c1db ∧
    isHTTPError (main.criar_usuario exHash c1db ⟨"alice", "pw"⟩).1 = false := by
  refine ⟨by decide, by decide, by decide⟩

/-- C1 amended: the data-access-layer create_usuario re-checks the
username before insertion and raises the domain duplicate ValueError with
storage unchanged, for every request whose username is already stored;
the HTTP endpoint criar_usuario performs no re-check and no commit-time
translation, so the same duplicate request there escapes as the raw
IntegrityError — though still with no row added. -/
theorem C1_user_duplicate_amended (hash : String → String) (db : DB)
    (req : schemas.UsuarioCreate)
    (hex : ∃ u ∈ db.usuarios, u.username = req.username) :
    crud.create_usuario hash db req
      = .error (.valueError ("Usuário \x27" ++ req.username ++ "\x27 já existe.")) ∧
    (main.criar_usuario hash db req).2 = db ∧
    (main.criar_usuario hash db req).1
      = Resp.internal "UNIQUE constraint failed: usuarios.username" := by
  obtain ⟨u, hu, hname⟩ := hex
  have hany : db.usuarios.any (fun w => w.username == req.username) = true :=
    List.any_eq_true.mpr ⟨u, hu, by simp [hname]⟩
  have hsome : (crud.get_usuario_by_username db req.username).isSome := by
    simp only [crud.get_usuario_by_username, List.find?_isSome]
    exact ⟨u, hu, by simp [hname]⟩
  refine ⟨?_, ?_, ?_⟩
  · unfold crud.create_usuario
    cases hf : crud.get_usuario_by_username db req.username with
    | none => rw [hf] at hsome; simp at hsome
    | some w => simp [hf]
  · simp [main.criar_usuario, hany]
  · simp [main.criar_usuario, hany]

/-- Witness for the amended C1 at a concrete duplicate request. -/
theorem C1_user_duplicate_witness :
    crud.create_usuario exHash c1db ⟨"alice", "pw"⟩
      = .error (.valueError "Usuário \x27alice\x27 já existe.") ∧
    (main.criar_usuario exHash c1db ⟨"alice", "pw"⟩).2 = c1db :=
  ⟨(C1_user_duplicate_amended exHash c1db ⟨"alice", "pw"⟩
      ⟨⟨1, "alice", "hash:pw0"⟩, by decide, rfl⟩).1,
   (C1_user_duplicate_amended exHash c1db ⟨"alice", "pw"⟩
      ⟨⟨1, "alice", "hash:pw0"⟩, by decide, rfl⟩).2.1⟩

/-- C3 counterexample: a vehicle-creation body with empty brand and model
passes validation, and a user-creation body with empty username and
password passes validation — neither is rejected. -/
theorem C3_counterexample :
    (schemas.VeiculoCreate.validate ⟨"", "", 2020, "ABC1234", some "DESCONECTADO"⟩).isSome
      = true ∧
    (schemas.UsuarioCreate.validate "" "").isSome = true := by
  refine ⟨by decide, by decide⟩

/-- C3 amended: validation never rejects empty text: whether a
vehicle-creation body validates is independent of its brand and model
fields (only year, plate and status are checked), and user-creation
validation accepts every username/password pair, empty strings included. -/
theorem C3_empty_text_accepted (r : schemas.VeiculoBody) (username password : String) :
    (schemas.VeiculoCreate.validate r).isSome
      = (schemas.VeiculoCreate.validate { r with marca := "", modelo := "" }).isSome ∧
    schemas.UsuarioCreate.validate username password = some ⟨username, password⟩ := by
  constructor
  · by_cases hcond : 1886 ≤ r.ano ∧ r.placa.length = 7 ∧
        schemas.status_must_be_valid r.status = true
    · simp [schemas.VeiculoCreate.validate, hcond]
    · simp only [schemas.VeiculoCreate.validate]
      rw [if_neg hcond, if_neg hcond]
  · rfl

/-- C6: the 401 answered to a login with an unknown username and the 401
answered to a login with a stored username but a failing password are the
same response — same status, same detail, same challenge header. -/
theorem C6_login_indistinguishable (verify : String → String → Bool)
    (mkToken : String → String) (db : DB) (u1 p1 u2 p2 : String)
    (usr : models.Usuario)
    (h1 : crud.get_usuario_by_username db u1 = none)
    (h2 : crud.get_usuario_by_username db u2 = some usr)
    (h3 : verify p2 usr.hashed_password = false) :
    main.login_for_access_token verify mkToken db u1 p1
      = main.login_for_access_token verify mkToken db u2 p2 ∧
    main.login_for_access_token verify mkToken db u1 p1
      = Resp.err 401 "Usuário ou senha incorretos" (some ("WWW-Authenticate", "Bearer")) := by
  have e1 : main.login_for_access_token verify mkToken db u1 p1
      = Resp.err 401 "Usuário ou senha incorretos" (some ("WWW-Authenticate", "Bearer")) := by
    simp [main.login_for_access_token, auth.authenticate_user, h1]
  have e2 : main.login_for_access_token verify mkToken db u2 p2
      = Resp.err 401 "Usuário ou senha incorretos" (some ("WWW-Authenticate", "Bearer")) := by
    simp [main.login_for_access_token, auth.authenticate_user, h2, h3]
  exact ⟨e1.trans e2.symm, e1⟩

/-- Witness for C6: unknown user "bob" and the stored "alice" with a
wrong password receive the identical 401. -/
theorem C6_login_indistinguishable_witness :
    main.login_for_access_token (fun _ _ => false) (fun s => s) c1db "bob" "x"
      = main.login_for_access_token (fun _ _ => false) (fun s => s) c1db "alice" "wrong" ∧
    main.login_for_access_token (fun _ _ => false) (fun s => s) c1db "bob" "x"
      = Resp.err 401 "Usuário ou senha incorretos" (some ("WWW-Authenticate", "Bearer")) :=
  C6_login_indistinguishable (fun _ _ => false) (fun s => s) c1db "bob" "x" "alice" "wrong"
    ⟨1, "alice", "hash:pw0"⟩ (by decide) (by decide) rfl

/-- The strings serialized into a schemas.Usuario response. -/
def usuarioRespStrings (u : schemas.Usuario) : List String := [toString u.id, u.username]

/-- C8: a successful user-creation response is exactly the id and the
username — under response_model=schemas.Usuario nothing else is
serialized, so neither the plaintext nor the hashed password can appear
(whenever it differs from those two public strings); and a successful
login response carries a token built from the username alone. -/
theorem C8_no_password_in_response (hash : String → String) (db : DB)
    (req : schemas.UsuarioCreate) (resp : schemas.Usuario) (db2 : DB)
    (verify : String → String → Bool) (mkToken : String → String)
    (u p : String) (t : schemas.Token) :
    (main.criar_usuario hash db req = (Resp.ok resp, db2) →
      resp = ⟨db.nextUsuarioId, req.username⟩ ∧
      usuarioRespStrings resp = [toString db.nextUsuarioId, req.username] ∧
      (req.password ≠ req.username → req.password ≠ toString db.nextUsuarioId →
        req.password ∉ usuarioRespStrings resp) ∧
      (hash req.password ≠ req.username → hash req.password ≠ toString db.nextUsuarioId →
        hash req.password ∉ usuarioRespStrings resp)) ∧
    (main.login_for_access_token verify mkToken db u p = Resp.ok t →
      ∃ usr ∈ db.usuarios, t = ⟨mkToken usr.username, "bearer"⟩) := by
  constructor
  · intro hok
    have hresp : resp = ⟨db.nextUsuarioId, req.username⟩ := by
      by_cases hany : db.usuarios.any (fun w => w.username == req.username) = true
      · simp [main.criar_usuario, hany] at hok
      · have hf : db.usuarios.any (fun w => w.username == req.username) = false :=
          Bool.eq_false_iff.mpr hany
        simp [main.criar_usuario, hf] at hok
        exact hok.1.symm
    refine ⟨hresp, by rw [hresp]; rfl, ?_, ?_⟩
    · intro hpu hpi
      rw [hresp]
      simp [usuarioRespStrings, hpu, hpi]
    · intro hpu hpi
      rw [hresp]
      simp [usuarioRespStrings, hpu, hpi]
  · intro hok
    unfold main.login_for_access_token at hok
    cases hauth : auth.authenticate_user verify db u p with
    | none => rw [hauth] at hok; simp at hok
    | some usr =>
      rw [hauth] at hok
      simp only [Resp.ok.injEq] at hok
      refine ⟨usr, ?_, hok.symm⟩
      unfold auth.authenticate_user at hauth
      cases hf : crud.get_usuario_by_username db u with
      | none => rw [hf] at hauth; simp at hauth
      | some w =>
        rw [hf] at hauth
        have hauth2 : (if verify p w.hashed_password = true then some w else none)
            = some usr := hauth
        by_cases hv : verify p w.hashed_password = true
        · rw [if_pos hv] at hauth2
          cases hauth2
          exact List.mem_of_find?_eq_some hf
        · rw [if_neg hv] at hauth2
          simp at hauth2

/-- Witness for C8: creating "bob"/"secret" answers exactly id 1 and
username "bob"; the password "secret" is not among the response strings. -/
theorem C8_no_password_in_response_witness :
    ¬ ("secret" ∈ usuarioRespStrings ⟨1, "bob"⟩) :=
  ((C8_no_password_in_response exHash initDB ⟨"bob", "secret"⟩ ⟨1, "bob"⟩
      ⟨[], [⟨1, "bob", "hash:secret"⟩], 1, 2⟩ (fun _ _ => false) (fun s => s) "" ""
      ⟨"", ""⟩).1 (by decide)).2.2.1 (by decide) (by decide)

/-- C9: the CLI create action without a username or password, and the
delete action without a username, print the fixed guidance message and
return with storage untouched; and the top-level except clause turns
every exception escaping an action into the generic printed error, again
ending the run normally with storage as it was. -/
theorem C9_cli_error_handling (hash : String → String) (args : manage_users.Args)
    (db : DB) (r : Except CrudErr (List String × DB)) (e : CrudErr) :
    (args.action = "create" →
      (manage_users.argMissing args.username = true ∨
        manage_users.argMissing args.password = true) →
      manage_users.main hash args db
        = (["Usuário e senha são necessários para criar um novo usuário."], db)) ∧
    (args.action = "delete" → manage_users.argMissing args.username = true →
      manage_users.main hash args db
        = (["Nome de usuário é necessário para excluir um usuário."], db)) ∧
    (r = .error e →
      manage_users.cliCatch r db = (["Ocorreu um erro: " ++ manage_users.errText e], db)) := by
  refine ⟨?_, ?_, ?_⟩
  · intro hact hmiss
    have hm : (manage_users.argMissing args.username
        || manage_users.argMissing args.password) = true := by
      rcases hmiss with h | h <;> simp [h]
    simp [manage_users.main, manage_users.runAction, hact, hm, manage_users.cliCatch]
  · intro hact hmiss
    simp [manage_users.main, manage_users.runAction, hact, hmiss, manage_users.cliCatch]
  · intro hr
    simp [hr, manage_users.cliCatch]

/-- Witness for C9: create with both flags absent, delete with the
username flag absent, and a caught ValueError. -/
theorem C9_cli_error_handling_witness :
    manage_users.main exHash ⟨"create", none, none⟩ initDB
      = (["Usuário e senha são necessários para criar um novo usuário."], initDB) ∧
    manage_users.main exHash ⟨"delete", none, some "x"⟩ initDB
      = (["Nome de usuário é necessário para excluir um usuário."], initDB) ∧
    manage_users.cliCatch (.error (.valueError "boom")) initDB
      = (["Ocorreu um erro: boom"], initDB) :=
  ⟨(C9_cli_error_handling exHash ⟨"create", none, none⟩ initDB
      (.error (.valueError "boom")) (.valueError "boom")).1 rfl (Or.inl rfl),
   (C9_cli_error_handling exHash ⟨"delete", none, some "x"⟩ initDB
      (.error (.valueError "boom")) (.valueError "boom")).2.1 rfl rfl,
   (C9_cli_error_handling exHash ⟨"delete", none, some "x"⟩ initDB
      (.error (.valueError "boom")) (.valueError "boom")).2.2 rfl⟩

/-- C10: updating a stored vehicle's status to a valid value changes only
that vehicle's status field — its id, brand, model, year and plate are
kept, every other vehicle row is kept verbatim, the user table and both
id counters are untouched, and the response is the updated row. -/
theorem C10_update_frame (db : DB) (vid : Nat) (s : String) (v : models.Veiculo)
    (hst : s = "CONNECTADO" ∨ s = "DESCONECTADO")
    (hfind : crud.get_veiculo db vid = some v)
    (hids : (db.veiculos.map (fun w => w.id)).Nodup) :
    (main.atualizar_status db vid s).1 = Resp.ok { v with status := s } ∧
    ((main.atualizar_status db vid s).2).veiculos
      = db.veiculos.map (fun w => if w.id = vid then { w with status := s } else w) ∧
    ((main.atualizar_status db vid s).2).usuarios = db.usuarios ∧
    ((main.atualizar_status db vid s).2).nextVeiculoId = db.nextVeiculoId ∧
    ((main.atualizar_status db vid s).2).nextUsuarioId = db.nextUsuarioId := by
  have hf : db.veiculos.find? (fun w => w.id == vid) = some v := by
    simpa [crud.get_veiculo] using hfind
  simp only [main.atualizar_status, if_neg (not_not_intro hst), hf]
  refine ⟨by trivial, setStatusFirst_eq_map db.veiculos vid s hids, by trivial, by trivial,
    by trivial⟩

/-- Concrete two-vehicle store used to instantiate the frame theorem. -/
def c10db : DB :=
  ⟨[⟨1, "Fiat", "Uno", 2022, "ABC1234", "DESCONECTADO"⟩,
    ⟨2, "VW", "Gol", 2020, "XYZ5678", "CONNECTADO"⟩],
   [⟨1, "alice", "hash:pw0"⟩], 3, 2⟩

/-- Witness for C10: connecting vehicle 1 answers the updated row and
keeps the user table unchanged. -/
theorem C10_update_frame_witness :
    (main.atualizar_status c10db 1 "CONNECTADO").1
      = Resp.ok ⟨1, "Fiat", "Uno", 2022, "ABC1234", "CONNECTADO"⟩ ∧
    ((main.atualizar_status c10db 1 "CONNECTADO").2).usuarios = c10db.usuarios :=
  ⟨(C10_update_frame c10db 1 "CONNECTADO" ⟨1, "Fiat", "Uno", 2022, "ABC1234", "DESCONECTADO"⟩
      (Or.inl rfl) (by decide) (by decide)).1,
   (C10_update_frame c10db 1 "CONNECTADO" ⟨1, "Fiat", "Uno", 2022, "ABC1234", "DESCONECTADO"⟩
      (Or.inl rfl) (by decide) (by decide)).2.2.1⟩

end VehApi
